import Mathlib

/-!
Verification of the copy-ai-clone article-generation script (`api.py`).

The development shallowly embeds the two pieces of logic the repository
actually implements:

* the List Parser `response_to_list` (api.py, lines 99-113), modelled
  character-for-character on `List Char`, together with ASCII models of
  Python's `str.isdigit`, `string.punctuation` and `str.strip`;
* the `__main__` generation pipeline (api.py, lines 116-159), modelled as a
  deterministic function of an oracle `gen : Nat -> String` giving the
  response of the external LLM to the i-th generation call.  Every call the
  pipeline issues is recorded in order as a `GenCall` (kind, prompt string,
  configuration), and the final file write is modelled as a
  (file name, file content) pair.
-/

/-- ASCII model of the whitespace characters removed by Python's
`str.strip()` (space, tab, newline, carriage return, vertical tab,
form feed). -/
def pyIsSpace (c : Char) : Bool :=
  c = ' ' || c = '\t' || c = '\n' || c = '\r' || c = '\x0b' || c = '\x0c'

/-- Python's `string.punctuation`, i.e. the ASCII characters with codes
33-47, 58-64, 91-96 and 123-126. -/
def isPyPunct (c : Char) : Bool :=
  (33 ≤ c.toNat && c.toNat ≤ 47) || (58 ≤ c.toNat && c.toNat ≤ 64) ||
  (91 ≤ c.toNat && c.toNat ≤ 96) || (123 ≤ c.toNat && c.toNat ≤ 126)

/-- The filter of api.py line 103: a character is accumulated into the
running item iff `not char.isdigit() and char not in string.punctuation`
(`Char.isDigit` is the ASCII meaning of Python's `isdigit`). -/
def keepChar (c : Char) : Bool :=
  !c.isDigit && !isPyPunct c

/-- Left part of Python's `str.strip()`: drop leading whitespace. -/
def lstrip (l : List Char) : List Char :=
  l.dropWhile pyIsSpace

/-- Right part of Python's `str.strip()`: drop trailing whitespace. -/
def rstrip (l : List Char) : List Char :=
  (l.reverse.dropWhile pyIsSpace).reverse

/-- Python's `str.strip()` on the character list of a string. -/
def pyStrip (l : List Char) : List Char :=
  rstrip (lstrip l)

/-- `str.strip()` at the `String` level. -/
def pyStripS (s : String) : String :=
  String.mk (pyStrip s.data)

/-- The character scan of `response_to_list` (api.py lines 102-112):
`item` is the running buffer, `acc` the list built so far.  For each
character, first the character is appended to `item` when `keepChar`
holds (line 103-104); then, if the character is a newline and the updated
buffer strips to something non-empty, the stripped buffer is flushed and
the buffer reset (lines 105-109).  After the scan a non-empty buffer is
flushed stripped (lines 110-112). -/
def responseToListLoop : List Char → List Char → List (List Char) → List (List Char)
  | [], item, acc =>
      if item = [] then acc else acc ++ [pyStrip item]
  | c :: rest, item, acc =>
      let item2 := if keepChar c then item ++ [c] else item
      if c = '\n' ∧ pyStrip item2 ≠ [] then
        responseToListLoop rest [] (acc ++ [pyStrip item2])
      else
        responseToListLoop rest item2 acc

/-- `response_to_list` (api.py lines 99-113). -/
def response_to_list (response : String) : List String :=
  (responseToListLoop response.data [] []).map String.mk

/-! ## The generation pipeline (api.py lines 116-159)

The external LLM is an oracle `gen : Nat → String` giving the response to
the i-th generation call of the run (calls are strictly sequential).  The
`__main__` block hardcodes `title = "A Guide to Natural Language
Processing"`, `keywords = ["nlp", "ai", "natural language processing"]`
and the tone `"informative"` at every call site; the embedding keeps them
as parameters (the same `tone` value is passed everywhere, as in the
script). -/

/-- Which generation endpoint a call went through. -/
inductive CallKind
  | outline
  | talkingPoints
  | mainParagraph
  | introParagraph
  | conclusionParagraph
deriving DecidableEq

/-- An LLM configuration dict (api.py lines 31-38).  `temperature` is an
exact rational standing for the Python float literal (`0.75` and `0.3`,
which are only ever compared with one another). -/
structure LLMConfig where
  max_words : Nat
  temperature : ℚ
deriving DecidableEq

/-- `POINTS_LLM_CONFIG = {"max_words": 150, "temperature": 0.75}`. -/
def POINTS_LLM_CONFIG : LLMConfig :=
  ⟨150, (75 : ℚ) / 100⟩

/-- `PARAGRAPH_LLM_CONFIG = {"max_words": 300, "temperature": 0.3}`. -/
def PARAGRAPH_LLM_CONFIG : LLMConfig :=
  ⟨300, (3 : ℚ) / 10⟩

/-- One call to the external generation capability: the endpoint it went
through, the prompt sent, and the configuration preset used. -/
structure GenCall where
  kind : CallKind
  prompt : String
  config : LLMConfig
deriving DecidableEq

/-- Python's `sep.join(s)` when `s` is a *string*: joins the characters
of `s` (this happens in the `__main__` block, which passes the title
string where `generate_intro_paragraph` expects a list of headers). -/
def pyJoinChars (sep : String) (s : String) : String :=
  String.intercalate sep (s.data.map fun c => String.mk [c])

/-- The f-string of `generate_outline` (api.py lines 45-46), with its
literal newline and indentation. -/
def outlinePrompt (title : String) (keywords : List String) (tone : String) : String :=
  "Generate four headers for a technical article titled " ++ title ++
    "\n      focused on " ++ String.intercalate ", " keywords ++
    " with a " ++ tone ++ " tone"

/-- The f-string of `generate_talking_points` (api.py lines 57-58). -/
def talkingPointsPrompt (header : String) (tone : String) : String :=
  "Generate three talking points for a section of a \n    technical article titled " ++
    header ++ " with a " ++ tone ++ " tone"

/-- The f-string of `generate_main_paragraph` (api.py lines 68-69). -/
def mainParagraphPrompt (point : String) (tone : String) : String :=
  "Generate a four sentence paragraph based\n    on " ++ point ++
    " with a " ++ tone ++ " tone"

/-- The f-string of `generate_intro_paragraph` (api.py lines 79-80), as a
function of the already-joined headers text `{", ".join(headers)}`. -/
def introPromptJoined (title : String) (tone : String) (joinedHeaders : String) : String :=
  "Generate a four sentence article introduction paragraph with a " ++ tone ++
    " tone \n    for an article titled \"" ++ title ++ "\" with the headers " ++
    joinedHeaders

/-- The f-string of `generate_conclusion_paragraph` (api.py lines 90-91). -/
def conclusionPrompt (title : String) (intro : String) (tone : String) : String :=
  "Generate a four sentence section conclusion paragraph with a " ++ tone ++
    " tone \n    for an article titled " ++ title ++
    " with the introduction paragraph:" ++ intro

/-- The mutable instance state of a `PromptPackage` object: the only
attribute any of its methods assigns is `tone` (api.py line 48,
`self.tone = tone` inside `generate_outline`); `self.client` is never
reassigned.  `none` models the attribute being unset, as on a fresh
instance. -/
structure PromptPackage where
  tone : Option String
deriving DecidableEq

/-- `PromptPackage.generate_outline` (api.py lines 43-51): builds the
outline prompt, assigns `self.tone = tone`, and issues a `points`-plugin
call with `POINTS_LLM_CONFIG`.  Returns the issued call and the updated
instance state. -/
def generate_outline (_self : PromptPackage) (title : String) (keywords : List String)
    (tone : String) : GenCall × PromptPackage :=
  (⟨CallKind.outline, outlinePrompt title keywords tone, POINTS_LLM_CONFIG⟩, ⟨some tone⟩)

/-- `PromptPackage.generate_talking_points` (api.py lines 54-62):
a `points`-plugin call with `POINTS_LLM_CONFIG`; no state change. -/
def generate_talking_points (self : PromptPackage) (header : String)
    (tone : String) : GenCall × PromptPackage :=
  (⟨CallKind.talkingPoints, talkingPointsPrompt header tone, POINTS_LLM_CONFIG⟩, self)

/-- `PromptPackage.generate_main_paragraph` (api.py lines 65-73):
a `paragraph`-plugin call with `PARAGRAPH_LLM_CONFIG`; no state change. -/
def generate_main_paragraph (self : PromptPackage) (point : String)
    (tone : String) : GenCall × PromptPackage :=
  (⟨CallKind.mainParagraph, mainParagraphPrompt point tone, PARAGRAPH_LLM_CONFIG⟩, self)

/-- `PromptPackage.generate_intro_paragraph` (api.py lines 76-85) at its
declared argument type `headers : list[str]`; no state change. -/
def generate_intro_paragraph (self : PromptPackage) (title : String)
    (headers : List String) (tone : String) : GenCall × PromptPackage :=
  (⟨CallKind.introParagraph,
    introPromptJoined title tone (String.intercalate ", " headers),
    PARAGRAPH_LLM_CONFIG⟩, self)

/-- `PromptPackage.generate_intro_paragraph` when a *string* is passed as
`headers` — which is what the `__main__` block does at api.py line 134,
passing `title` twice; Python's `", ".join` then joins the string's
characters.  Same body, duck-typed at `str`. -/
def generate_intro_paragraph_strArg (self : PromptPackage) (title : String)
    (headers : String) (tone : String) : GenCall × PromptPackage :=
  (⟨CallKind.introParagraph,
    introPromptJoined title tone (pyJoinChars ", " headers),
    PARAGRAPH_LLM_CONFIG⟩, self)

/-- `PromptPackage.generate_conclusion_paragraph` (api.py lines 87-95);
no state change. -/
def generate_conclusion_paragraph (self : PromptPackage) (title : String)
    (intro : String) (tone : String) : GenCall × PromptPackage :=
  (⟨CallKind.conclusionParagraph, conclusionPrompt title intro tone,
    PARAGRAPH_LLM_CONFIG⟩, self)

/-- Insertion into a Python `dict` viewed as an insertion-ordered
association list: an existing key keeps its position and gets the new
value, a new key is appended. -/
def dictInsert (m : List (String × List String)) (k : String)
    (v : List String) : List (String × List String) :=
  if m.any (fun p => p.1 = k) then
    m.map (fun p => if p.1 = k then (k, v) else p)
  else
    m ++ [(k, v)]

/-- The state threaded through the per-header loop of the `__main__`
block (api.py lines 138-153). -/
structure LoopState where
  selfSt : PromptPackage
  calls : List GenCall
  next : Nat
  tp_map : List (String × List String)
  pg_map : List (String × List String)
  conclusion? : Option String
  tp_counts : List Nat
deriving DecidableEq

/-- The inner loop over one header's talking points (api.py lines
145-150): one `generate_main_paragraph` call per point, in order,
collecting the issued calls and the oracle's paragraphs.  `k` is the
index of the next oracle response. -/
def innerLoop (gen : Nat → String) (selfSt : PromptPackage) (tone : String) :
    List String → Nat → List GenCall × List String
  | [], _ => ([], [])
  | point :: rest, k =>
      let c := (generate_main_paragraph selfSt point tone).1
      let pg := gen k
      let r := innerLoop gen selfSt tone rest (k + 1)
      (c :: r.1, pg :: r.2)

/-- One iteration of the per-header loop (api.py lines 138-153): one
`generate_talking_points` call whose response is parsed by
`response_to_list` and stored in `header_talking_points_map`; one
paragraph call per parsed point, the paragraphs stored in
`header_paragraphs_map`; and — still inside the loop body — one
`generate_conclusion_paragraph` call rebinding `conclusion`.
`tp_counts` records the iteration's number of parsed talking points
(the `len(header_talking_points_map[header])` of the commented-out
api.py line 144), used only to state call-count theorems. -/
def loopStep (gen : Nat → String) (title : String) (intro : String)
    (tone : String) (st : LoopState) (header : String) : LoopState :=
  let tpCall := (generate_talking_points st.selfSt header tone).1
  let tp_list := response_to_list (gen st.next)
  let inner := innerLoop gen st.selfSt tone tp_list (st.next + 1)
  let conclCall := (generate_conclusion_paragraph st.selfSt title intro tone).1
  let concl := gen (st.next + 1 + tp_list.length)
  ⟨st.selfSt,
   st.calls ++ [tpCall] ++ inner.1 ++ [conclCall],
   st.next + 1 + tp_list.length + 1,
   dictInsert st.tp_map header tp_list,
   dictInsert st.pg_map header inner.2,
   some concl,
   st.tp_counts ++ [tp_list.length]⟩

/-- The per-header loop of the `__main__` block (api.py lines 138-153),
iterating `loopStep` over the parsed headers in order. -/
def outerLoop (gen : Nat → String) (title : String) (intro : String)
    (tone : String) : List String → LoopState → LoopState
  | [], st => st
  | header :: rest, st =>
      outerLoop gen title intro tone rest (loopStep gen title intro tone st header)

/-- The observable outcome of one `__main__` run. -/
structure RunResult where
  calls : List GenCall
  headers_list : List String
  intro : String
  tp_map : List (String × List String)
  pg_map : List (String × List String)
  conclusion? : Option String
  tp_counts : List Nat
  file_name : String
  file_content : String
  completed : Bool
deriving DecidableEq

/-- The loop state right before the per-header loop starts (api.py lines
122-136): the outline call has been issued on a fresh instance
(assigning `self.tone`), then the intro call — whose `headers` argument
receives the *title string* (api.py line 134), so `", ".join` joins its
characters; oracle responses 0 and 1 are consumed here. -/
def initState (title : String) (keywords : List String) (tone : String) : LoopState :=
  ⟨(generate_outline ⟨none⟩ title keywords tone).2,
   [(generate_outline ⟨none⟩ title keywords tone).1,
    (generate_intro_paragraph_strArg (generate_outline ⟨none⟩ title keywords tone).2
      title title tone).1],
   2, [], [], none, []⟩

/-- The loop state after the whole per-header loop: the headers are
`response_to_list(headers.strip())` of the outline response (api.py
line 129), and the intro text is oracle response 1. -/
def finState (gen : Nat → String) (title : String) (keywords : List String)
    (tone : String) : LoopState :=
  outerLoop gen title (gen 1) tone (response_to_list (pyStripS (gen 0)))
    (initState title keywords tone)

/-- The `__main__` pipeline (api.py lines 116-159): one outline call whose
stripped response is parsed into `headers_list`; one intro call passing
`title` both as title and (duck-typed) as the headers argument; the
per-header loop; then the file write (api.py lines 154-159):
`{title}.txt` receives `intro + "\n"`, then for each entry of
`header_paragraphs_map` the header, a newline and its `"\n"`-joined
paragraphs, then `conclusion`.  When `headers_list` is empty the loop
never binds `conclusion`, so the final `f.write(conclusion)` raises
`NameError`: the file still exists with the text written before the
crash (modelled by `conclusion?.getD ""`) and `completed` is `false`. -/
def runPipeline (gen : Nat → String) (title : String) (keywords : List String)
    (tone : String) : RunResult :=
  let fin := finState gen title keywords tone
  ⟨fin.calls,
   response_to_list (pyStripS (gen 0)),
   gen 1,
   fin.tp_map, fin.pg_map, fin.conclusion?, fin.tp_counts,
   title ++ ".txt",
   gen 1 ++ "\n" ++
     String.join (fin.pg_map.map fun p => p.1 ++ "\n" ++ String.intercalate "\n" p.2) ++
     fin.conclusion?.getD "",
   fin.conclusion?.isSome⟩

/-- Number of calls of a given kind in a trace. -/
def countKind (calls : List GenCall) (k : CallKind) : Nat :=
  (calls.filter (fun c => decide (c.kind = k))).length

/-- An item flushed at a newline boundary: already stripped and
non-empty. -/
def GoodItem (x : List Char) : Prop := pyStrip x = x ∧ x ≠ []

/-- An output item of the parser: all its characters pass the
digit/punctuation filter and it is already stripped. -/
def CleanItem (x : List Char) : Prop :=
  (∀ c ∈ x, keepChar c = true) ∧ pyStrip x = x

/-- A call's configuration matches its kind: `points` preset for the two
list-producing endpoints, `paragraph` preset otherwise. -/
def ConfigOK (c : GenCall) : Prop :=
  c.config = if c.kind = CallKind.outline ∨ c.kind = CallKind.talkingPoints
    then POINTS_LLM_CONFIG else PARAGRAPH_LLM_CONFIG

/-- What the prompts of intro and conclusion calls must look like: the
intro prompt joins the characters of the title (the title was passed in
place of the headers list), and every conclusion prompt is built from
the title and the generated introduction. -/
def IntroConclPromptOK (title intro tone : String) (c : GenCall) : Prop :=
  (c.kind = CallKind.introParagraph →
    c.prompt = introPromptJoined title tone (pyJoinChars ", " title)) ∧
  (c.kind = CallKind.conclusionParagraph →
    c.prompt = conclusionPrompt title intro tone)

/-! ## Properties of the Python `strip` model -/

theorem lstrip_idem (l : List Char) : lstrip (lstrip l) = lstrip l := by
  unfold lstrip
  exact List.dropWhile_idempotent pyIsSpace l

theorem rstrip_idem (l : List Char) : rstrip (rstrip l) = rstrip l := by
  unfold rstrip
  rw [List.reverse_reverse, List.dropWhile_idempotent]

/-- `rstrip l` is an initial segment of `l`. -/
theorem rstrip_append (l : List Char) : ∃ t, rstrip l ++ t = l := by
  obtain ⟨u, hu⟩ := List.dropWhile_suffix (l := l.reverse) pyIsSpace
  refine ⟨u.reverse, ?_⟩
  unfold rstrip
  conv_rhs => rw [← List.reverse_reverse l, ← hu]
  rw [List.reverse_append]

theorem lstrip_cons_self {c : Char} {t : List Char}
    (h : lstrip (c :: t) = c :: t) : pyIsSpace c = false := by
  have h0 := (List.dropWhile_eq_self_iff).mp h (by simp)
  simpa using h0

/-- A left-stripped list stays left-stripped after right-stripping. -/
theorem lstrip_rstrip {m : List Char} (h : lstrip m = m) :
    lstrip (rstrip m) = rstrip m := by
  obtain ⟨t, ht⟩ := rstrip_append m
  cases hr : rstrip m with
  | nil => simp [lstrip]
  | cons c cs =>
      have hm : m = c :: (cs ++ t) := by rw [← ht, hr]; simp
      have hc : pyIsSpace c = false := lstrip_cons_self (t := cs ++ t) (by rw [← hm]; exact h)
      unfold lstrip
      rw [List.dropWhile_cons_of_neg (by simp [hc])]

theorem pyStrip_idem (l : List Char) : pyStrip (pyStrip l) = pyStrip l := by
  unfold pyStrip
  rw [lstrip_rstrip (lstrip_idem l), rstrip_idem]

theorem mem_of_mem_pyStrip {c : Char} {l : List Char} (h : c ∈ pyStrip l) : c ∈ l := by
  unfold pyStrip rstrip lstrip at h
  rw [List.mem_reverse] at h
  have h1 : c ∈ (l.dropWhile pyIsSpace).reverse :=
    (List.dropWhile_suffix pyIsSpace).subset h
  rw [List.mem_reverse] at h1
  exact (List.dropWhile_suffix pyIsSpace).subset h1

/-! ## Invariants of the `response_to_list` scan -/

/-- Every element of the scan's output except possibly the final flush is
a stripped non-empty buffer. -/
theorem loop_dropLast_good (cs : List Char) :
    ∀ item acc, (∀ x ∈ acc, GoodItem x) →
    ∀ x ∈ (responseToListLoop cs item acc).dropLast, GoodItem x := by
  induction cs with
  | nil =>
      intro item acc hacc x hx
      simp only [responseToListLoop] at hx
      split at hx
      · exact hacc x (List.dropLast_subset acc hx)
      · rw [List.dropLast_concat] at hx
        exact hacc x hx
  | cons c rest ih =>
      intro item acc hacc x hx
      simp only [responseToListLoop] at hx
      by_cases hcond : c = '\n' ∧ pyStrip (if keepChar c then item ++ [c] else item) ≠ []
      · rw [if_pos hcond] at hx
        refine ih _ _ (fun y hy => ?_) x hx
        rcases List.mem_append.mp hy with hy | hy
        · exact hacc y hy
        · rw [List.mem_singleton] at hy
          subst hy
          exact ⟨pyStrip_idem _, hcond.2⟩
      · rw [if_neg hcond] at hx
        exact ih _ _ hacc x hx

/-- Every element of the scan's output is built from filtered characters
and is stripped. -/
theorem loop_clean (cs : List Char) :
    ∀ item acc, (∀ c ∈ item, keepChar c = true) → (∀ x ∈ acc, CleanItem x) →
    ∀ x ∈ responseToListLoop cs item acc, CleanItem x := by
  induction cs with
  | nil =>
      intro item acc hitem hacc x hx
      simp only [responseToListLoop] at hx
      split at hx
      · exact hacc x hx
      · rcases List.mem_append.mp hx with h | h
        · exact hacc x h
        · rw [List.mem_singleton] at h
          subst h
          exact ⟨fun c hc => hitem c (mem_of_mem_pyStrip hc), pyStrip_idem _⟩
  | cons c rest ih =>
      intro item acc hitem hacc x hx
      simp only [responseToListLoop] at hx
      have hitem2 : ∀ d ∈ (if keepChar c then item ++ [c] else item), keepChar d = true := by
        split
        · intro d hd
          rcases List.mem_append.mp hd with h | h
          · exact hitem d h
          · rw [List.mem_singleton] at h
            subst h
            assumption
        · exact hitem
      by_cases hcond : c = '\n' ∧ pyStrip (if keepChar c then item ++ [c] else item) ≠ []
      · rw [if_pos hcond] at hx
        refine ih _ _ (by intro d hd; cases hd) (fun y hy => ?_) x hx
        rcases List.mem_append.mp hy with h | h
        · exact hacc y h
        · rw [List.mem_singleton] at h
          subst h
          exact ⟨fun d hd => hitem2 d (mem_of_mem_pyStrip hd), pyStrip_idem _⟩
      · rw [if_neg hcond] at hx
        exact ih _ _ hitem2 hacc x hx

/-- Every item `response_to_list` returns consists of filtered characters
and carries no leading or trailing whitespace. -/
theorem respList_clean (s : String) : ∀ x ∈ response_to_list s,
    (∀ c ∈ x.data, keepChar c = true) ∧ pyStrip x.data = x.data := by
  intro x hx
  unfold response_to_list at hx
  rcases List.mem_map.mp hx with ⟨y, hy, rfl⟩
  exact loop_clean s.data [] [] (by intro c hc; cases hc) (by intro z hz; cases hz) y hy

/-- When the input contains no newline, the scan reduces to: filter the
characters, and flush the stripped buffer iff it is non-empty. -/
theorem loop_no_newline (cs : List Char) :
    ∀ item acc, (∀ c ∈ cs, c ≠ '\n') →
    responseToListLoop cs item acc =
      if item ++ cs.filter keepChar = [] then acc
      else acc ++ [pyStrip (item ++ cs.filter keepChar)] := by
  induction cs with
  | nil =>
      intro item acc _
      simp [responseToListLoop]
  | cons c rest ih =>
      intro item acc h
      have hc : c ≠ '\n' := h c (List.mem_cons_self c rest)
      simp only [responseToListLoop]
      rw [if_neg (by rintro ⟨h1, -⟩; exact hc h1)]
      rw [ih _ acc (fun d hd => h d (List.mem_cons_of_mem c hd))]
      by_cases hk : keepChar c
      · simp [List.filter_cons, hk]
      · simp [List.filter_cons, hk]

/-! ## Lemmas about the pipeline trace -/

theorem countKind_append (a b : List GenCall) (k : CallKind) :
    countKind (a ++ b) k = countKind a k + countKind b k := by
  simp [countKind, List.filter_append]

theorem countKind_cons (c : GenCall) (cs : List GenCall) (k : CallKind) :
    countKind (c :: cs) k = (if c.kind = k then 1 else 0) + countKind cs k := by
  simp only [countKind, List.filter_cons]
  by_cases h : c.kind = k
  · simp [h, Nat.add_comm]
  · simp [h]

theorem countKind_nil (k : CallKind) : countKind [] k = 0 := rfl

theorem innerLoop_fst (gen : Nat → String) (selfSt : PromptPackage) (tone : String) :
    ∀ (pts : List String) (k : Nat),
    (innerLoop gen selfSt tone pts k).1 =
      pts.map fun p => (generate_main_paragraph selfSt p tone).1
  | [], _ => rfl
  | p :: rest, k => by
      simp only [innerLoop, List.map_cons]
      rw [innerLoop_fst gen selfSt tone rest (k + 1)]

theorem innerLoop_snd_length (gen : Nat → String) (selfSt : PromptPackage) (tone : String) :
    ∀ (pts : List String) (k : Nat),
    (innerLoop gen selfSt tone pts k).2.length = pts.length
  | [], _ => rfl
  | p :: rest, k => by
      simp only [innerLoop, List.length_cons]
      rw [innerLoop_snd_length gen selfSt tone rest (k + 1)]

theorem countKind_paragraphCalls (selfSt : PromptPackage) (tone : String)
    (pts : List String) (k : CallKind) :
    countKind (pts.map fun p => (generate_main_paragraph selfSt p tone).1) k =
      if CallKind.mainParagraph = k then pts.length else 0 := by
  induction pts with
  | nil => by_cases h : CallKind.mainParagraph = k <;> simp [countKind_nil, h]
  | cons p rest ih =>
      rw [List.map_cons, countKind_cons, ih]
      by_cases h : CallKind.mainParagraph = k <;>
        simp [generate_main_paragraph, h, Nat.add_comm]

/-- Inserting a key not present in the dict appends it. -/
theorem dictInsert_fresh (m : List (String × List String)) (k : String)
    (v : List String) (h : ∀ q ∈ m, q.1 ≠ k) :
    dictInsert m k v = m ++ [(k, v)] := by
  unfold dictInsert
  rw [if_neg]
  simp only [List.any_eq_true, decide_eq_true_eq, not_exists]
  intro q
  by_cases hq : q ∈ m
  · simp [hq, h q hq]
  · simp [hq]

theorem loopStep_selfSt (gen : Nat → String) (title intro tone : String)
    (st : LoopState) (header : String) :
    (loopStep gen title intro tone st header).selfSt = st.selfSt := rfl

theorem loopStep_calls (gen : Nat → String) (title intro tone : String)
    (st : LoopState) (header : String) :
    (loopStep gen title intro tone st header).calls =
      st.calls ++ [(generate_talking_points st.selfSt header tone).1] ++
        (innerLoop gen st.selfSt tone (response_to_list (gen st.next)) (st.next + 1)).1 ++
        [(generate_conclusion_paragraph st.selfSt title intro tone).1] := rfl

theorem loopStep_tp_counts (gen : Nat → String) (title intro tone : String)
    (st : LoopState) (header : String) :
    (loopStep gen title intro tone st header).tp_counts =
      st.tp_counts ++ [(response_to_list (gen st.next)).length] := rfl

theorem loopStep_pg_map (gen : Nat → String) (title intro tone : String)
    (st : LoopState) (header : String) :
    (loopStep gen title intro tone st header).pg_map =
      dictInsert st.pg_map header
        (innerLoop gen st.selfSt tone (response_to_list (gen st.next)) (st.next + 1)).2 := rfl

theorem countKind_loopStep (gen : Nat → String) (title intro tone : String)
    (st : LoopState) (header : String) (k : CallKind) :
    countKind (loopStep gen title intro tone st header).calls k =
      countKind st.calls k +
        ((if CallKind.talkingPoints = k then 1 else 0) +
         (if CallKind.mainParagraph = k then (response_to_list (gen st.next)).length else 0) +
         (if CallKind.conclusionParagraph = k then 1 else 0)) := by
  rw [loopStep_calls, countKind_append, countKind_append, countKind_append,
      innerLoop_fst, countKind_paragraphCalls, countKind_cons, countKind_nil,
      countKind_cons, countKind_nil]
  have ht : (generate_talking_points st.selfSt header tone).1.kind =
      CallKind.talkingPoints := rfl
  have hc : (generate_conclusion_paragraph st.selfSt title intro tone).1.kind =
      CallKind.conclusionParagraph := rfl
  rw [ht, hc]
  omega

/-- Call-count bookkeeping across the whole per-header loop. -/
theorem outerLoop_counts (gen : Nat → String) (title intro tone : String) :
    ∀ (hs : List String) (st : LoopState),
    (outerLoop gen title intro tone hs st).tp_counts.length =
        st.tp_counts.length + hs.length ∧
    countKind (outerLoop gen title intro tone hs st).calls CallKind.outline =
        countKind st.calls CallKind.outline ∧
    countKind (outerLoop gen title intro tone hs st).calls CallKind.introParagraph =
        countKind st.calls CallKind.introParagraph ∧
    countKind (outerLoop gen title intro tone hs st).calls CallKind.talkingPoints =
        countKind st.calls CallKind.talkingPoints + hs.length ∧
    countKind (outerLoop gen title intro tone hs st).calls CallKind.conclusionParagraph =
        countKind st.calls CallKind.conclusionParagraph + hs.length ∧
    countKind (outerLoop gen title intro tone hs st).calls CallKind.mainParagraph +
        st.tp_counts.sum =
      countKind st.calls CallKind.mainParagraph +
        (outerLoop gen title intro tone hs st).tp_counts.sum := by
  intro hs
  induction hs with
  | nil =>
      intro st
      simp [outerLoop]
  | cons header rest ih =>
      intro st
      simp only [outerLoop]
      obtain ⟨h1, h2, h3, h4, h5, h6⟩ := ih (loopStep gen title intro tone st header)
      have hlen : (loopStep gen title intro tone st header).tp_counts.length =
          st.tp_counts.length + 1 := by
        rw [loopStep_tp_counts]; simp
      have hsum : (loopStep gen title intro tone st header).tp_counts.sum =
          st.tp_counts.sum + (response_to_list (gen st.next)).length := by
        rw [loopStep_tp_counts]; simp
      have ho := countKind_loopStep gen title intro tone st header CallKind.outline
      have hi := countKind_loopStep gen title intro tone st header CallKind.introParagraph
      have htp := countKind_loopStep gen title intro tone st header CallKind.talkingPoints
      have hcp := countKind_loopStep gen title intro tone st header CallKind.conclusionParagraph
      have hmp := countKind_loopStep gen title intro tone st header CallKind.mainParagraph
      simp only [reduceCtorEq, if_true, if_false, reduceIte] at ho hi htp hcp hmp
      simp only [List.length_cons]
      refine ⟨by omega, by omega, by omega, by omega, by omega, by omega⟩


/-- The per-header loop only issues calls whose configuration matches
their kind. -/
theorem outerLoop_configOK (gen : Nat → String) (title intro tone : String) :
    ∀ (hs : List String) (st : LoopState), (∀ c ∈ st.calls, ConfigOK c) →
    ∀ c ∈ (outerLoop gen title intro tone hs st).calls, ConfigOK c := by
  intro hs
  induction hs with
  | nil =>
      intro st h
      simpa [outerLoop] using h
  | cons header rest ih =>
      intro st h
      simp only [outerLoop]
      refine ih _ (fun c hc => ?_)
      rw [loopStep_calls] at hc
      rcases List.mem_append.mp hc with hc | hc
      · rcases List.mem_append.mp hc with hc | hc
        · rcases List.mem_append.mp hc with hc | hc
          · exact h c hc
          · rw [List.mem_singleton] at hc
            subst hc
            simp [ConfigOK, generate_talking_points]
        · rw [innerLoop_fst] at hc
          rcases List.mem_map.mp hc with ⟨p, -, rfl⟩
          simp [ConfigOK, generate_main_paragraph]
      · rw [List.mem_singleton] at hc
        subst hc
        simp [ConfigOK, generate_conclusion_paragraph]

/-- The per-header loop preserves the intro/conclusion prompt shape. -/
theorem outerLoop_promptOK (gen : Nat → String) (title intro tone : String) :
    ∀ (hs : List String) (st : LoopState),
    (∀ c ∈ st.calls, IntroConclPromptOK title intro tone c) →
    ∀ c ∈ (outerLoop gen title intro tone hs st).calls,
      IntroConclPromptOK title intro tone c := by
  intro hs
  induction hs with
  | nil =>
      intro st h
      simpa [outerLoop] using h
  | cons header rest ih =>
      intro st h
      simp only [outerLoop]
      refine ih _ (fun c hc => ?_)
      rw [loopStep_calls] at hc
      rcases List.mem_append.mp hc with hc | hc
      · rcases List.mem_append.mp hc with hc | hc
        · rcases List.mem_append.mp hc with hc | hc
          · exact h c hc
          · rw [List.mem_singleton] at hc
            subst hc
            simp [IntroConclPromptOK, generate_talking_points]
        · rw [innerLoop_fst] at hc
          rcases List.mem_map.mp hc with ⟨p, -, rfl⟩
          simp [IntroConclPromptOK, generate_main_paragraph]
      · rw [List.mem_singleton] at hc
        subst hc
        simp [IntroConclPromptOK, generate_conclusion_paragraph]

/-- With pairwise-distinct headers none of which is already a key, the
loop appends one `header_paragraphs_map` entry per header, in order. -/
theorem outerLoop_pg_keys (gen : Nat → String) (title intro tone : String) :
    ∀ (hs : List String) (st : LoopState), hs.Nodup →
    (∀ h ∈ hs, ∀ q ∈ st.pg_map, q.1 ≠ h) →
    (outerLoop gen title intro tone hs st).pg_map.map Prod.fst =
      st.pg_map.map Prod.fst ++ hs := by
  intro hs
  induction hs with
  | nil =>
      intro st _ _
      simp [outerLoop]
  | cons header rest ih =>
      intro st hnd hfresh
      have hfreshH : ∀ q ∈ st.pg_map, q.1 ≠ header :=
        fun q hq => hfresh header (List.mem_cons_self _ _) q hq
      have hstep : (loopStep gen title intro tone st header).pg_map =
          st.pg_map ++ [(header,
            (innerLoop gen st.selfSt tone (response_to_list (gen st.next))
              (st.next + 1)).2)] := by
        rw [loopStep_pg_map]
        exact dictInsert_fresh _ _ _ hfreshH
      have h2 := (List.nodup_cons.mp hnd).2
      have h3 : ∀ h ∈ rest,
          ∀ q ∈ (loopStep gen title intro tone st header).pg_map, q.1 ≠ h := by
        intro h hh q hq
        rw [hstep] at hq
        rcases List.mem_append.mp hq with hq | hq
        · exact hfresh h (List.mem_cons_of_mem _ hh) q hq
        · rw [List.mem_singleton] at hq
          subst hq
          intro heq
          refine (List.nodup_cons.mp hnd).1 ?_
          have hq1 : header = h := heq
          rw [hq1]
          exact hh
      simp only [outerLoop]
      rw [ih _ h2 h3, hstep]
      simp

/-! ## Claim theorems -/

/-- C1 (counterexample): the claim that no returned item is empty after
trimming fails on the input `" "`: the final flush of api.py lines
110-112 tests `item != ""` before stripping, so a whitespace-only tail
with no trailing newline contributes the empty item `""`. -/
theorem C1_counterexample :
    response_to_list " " = [""] ∧
    ¬ (∀ x ∈ response_to_list " ", pyStrip x.data ≠ []) := by
  constructor
  · rfl
  · decide

/-- C1 (amended): every item of `response_to_list` except possibly the
last is non-empty after trimming; only the final flush (input ending in
a whitespace-only buffer with no trailing newline) can contribute an
empty item.  In particular consecutive blank lines contribute no empty
entries. -/
theorem C1_items_nonempty (s : String) :
    ∀ x ∈ (response_to_list s).dropLast, pyStrip x.data ≠ [] := by
  intro x hx
  unfold response_to_list at hx
  rw [← List.map_dropLast] at hx
  rcases List.mem_map.mp hx with ⟨y, hy, rfl⟩
  have h := loop_dropLast_good s.data [] [] (by intro z hz; cases hz) y hy
  show pyStrip y ≠ []
  rw [h.1]
  exact h.2

/-- C1 witness. -/
theorem C1_witness : pyStrip ("a" : String).data ≠ [] :=
  C1_items_nonempty "a\nb" "a" (by decide)

/-- C9: every item returned by `response_to_list` contains no digit and
no ASCII punctuation character anywhere, and equals its own strip (no
leading or trailing whitespace). -/
theorem C9_items_clean (s : String) :
    ∀ x ∈ response_to_list s,
      (∀ c ∈ x.data, c.isDigit = false ∧ isPyPunct c = false) ∧
      pyStrip x.data = x.data := by
  intro x hx
  obtain ⟨h1, h2⟩ := respList_clean s x hx
  refine ⟨fun c hc => ?_, h2⟩
  simpa [keepChar] using h1 c hc

/-- C9 witness. -/
theorem C9_witness :
    (∀ c ∈ ("ab" : String).data, c.isDigit = false ∧ isPyPunct c = false) ∧
    pyStrip ("ab" : String).data = ("ab" : String).data :=
  C9_items_clean "ab\nc" "ab" (by decide)

/-- C5: no returned item starts with a digit or punctuation character
(every such character is removed), and on the spec's example the parser
returns exactly `["Introduction", "History"]`. -/
theorem C5_markers_stripped :
    (∀ (s : String), ∀ x ∈ response_to_list s, ∀ c : Char,
        x.data.head? = some c → c.isDigit = false ∧ isPyPunct c = false) ∧
    response_to_list "1. Introduction\n2. History\n" = ["Introduction", "History"] := by
  constructor
  · intro s x hx c hc
    have h := respList_clean s x hx
    simpa [keepChar] using h.1 c (List.mem_of_mem_head? hc)
  · rfl

/-- C5 witness. -/
theorem C5_witness : Char.isDigit 'I' = false ∧ isPyPunct 'I' = false :=
  C5_markers_stripped.1 "1. Introduction\n2. History\n" "Introduction"
    (by decide) 'I' (by decide)

/-- C6 (counterexample): the claim that a newline-free input with
non-empty trimmed content parses to its own trimmed value fails on
`"a."`: the trimmed input is `"a."` (non-empty, no newline) but the
parser also deletes the punctuation character and returns `["a"]`. -/
theorem C6_counterexample :
    (∀ c ∈ ("a." : String).data, c ≠ '\n') ∧
    pyStripS "a." = "a." ∧
    ("a." : String) ≠ "" ∧
    response_to_list "a." ≠ ["a."] ∧
    response_to_list "a." = ["a"] := by
  refine ⟨by decide, by decide, by decide, by decide, rfl⟩

/-- C6 (amended): for a newline-free input whose content after removing
digit and punctuation characters is non-empty, the result is the
one-element sequence holding the *filtered* input, trimmed. -/
theorem C6_single_item (s : String) (hnl : ∀ c ∈ s.data, c ≠ '\n')
    (hne : s.data.filter keepChar ≠ []) :
    response_to_list s = [String.mk (pyStrip (s.data.filter keepChar))] := by
  unfold response_to_list
  rw [loop_no_newline s.data [] [] hnl]
  rw [if_neg (by simpa using hne)]
  simp

/-- C6 witness. -/
theorem C6_witness :
    response_to_list "1. Intro" =
      [String.mk (pyStrip (("1. Intro" : String).data.filter keepChar))] :=
  C6_single_item "1. Intro" (by decide) (by decide)

/-- C4 (counterexample): `generate_outline` is not state-free: invoking
it on a fresh instance assigns the instance attribute `tone`
(api.py line 48), so the instance state changes. -/
theorem C4_counterexample :
    (generate_outline ⟨none⟩ "T" ["k"] "formal").2 ≠ (⟨none⟩ : PromptPackage) := by
  decide

/-- C4 (amended): every prompt builder is a pure function of its
arguments; the talking-points, paragraph, intro and conclusion builders
leave the instance state unchanged, while `generate_outline`'s only
state effect is assigning its `tone` argument to the instance attribute
`tone`. -/
theorem C4_builders_state (self : PromptPackage)
    (title header point intro tone : String)
    (keywords headers : List String) :
    (generate_outline self title keywords tone).2 = ⟨some tone⟩ ∧
    (generate_talking_points self header tone).2 = self ∧
    (generate_main_paragraph self point tone).2 = self ∧
    (generate_intro_paragraph self title headers tone).2 = self ∧
    (generate_intro_paragraph_strArg self title header tone).2 = self ∧
    (generate_conclusion_paragraph self title intro tone).2 = self :=
  ⟨rfl, rfl, rfl, rfl, rfl, rfl⟩

/-- C10: a run that completes (reaches the final `f.write(conclusion)`
with `conclusion` bound) must have parsed a non-empty header sequence:
`conclusion` is only assigned inside the per-header loop. -/
theorem C10_completed_headers_nonempty (gen : Nat → String) (title : String)
    (keywords : List String) (tone : String)
    (h : (runPipeline gen title keywords tone).completed = true) :
    (runPipeline gen title keywords tone).headers_list ≠ [] := by
  intro hnil
  have e2 : (runPipeline gen title keywords tone).headers_list =
      response_to_list (pyStripS (gen 0)) := rfl
  rw [e2] at hnil
  have e : (runPipeline gen title keywords tone).completed =
      (outerLoop gen title (gen 1) tone (response_to_list (pyStripS (gen 0)))
        (initState title keywords tone)).conclusion?.isSome := rfl
  rw [e, hnil] at h
  simp [outerLoop, initState] at h

/-- C10 witness. -/
theorem C10_witness :
    (runPipeline (fun _ => "A") "T" [] "informative").headers_list ≠ [] :=
  C10_completed_headers_nonempty (fun _ => "A") "T" [] "informative" (by rfl)

/-- C8: in every run, the outline and talking-points calls use
`POINTS_LLM_CONFIG` and the paragraph, intro and conclusion calls use
`PARAGRAPH_LLM_CONFIG`; the points preset has strictly smaller
`max_words` and strictly larger `temperature` than the paragraph
preset. -/
theorem C8_config_presets (gen : Nat → String) (title : String)
    (keywords : List String) (tone : String) :
    (∀ c ∈ (runPipeline gen title keywords tone).calls,
      ((c.kind = CallKind.outline ∨ c.kind = CallKind.talkingPoints) →
        c.config = POINTS_LLM_CONFIG) ∧
      ((c.kind = CallKind.mainParagraph ∨ c.kind = CallKind.introParagraph ∨
          c.kind = CallKind.conclusionParagraph) →
        c.config = PARAGRAPH_LLM_CONFIG)) ∧
    POINTS_LLM_CONFIG.max_words < PARAGRAPH_LLM_CONFIG.max_words ∧
    PARAGRAPH_LLM_CONFIG.temperature < POINTS_LLM_CONFIG.temperature := by
  refine ⟨?_, by norm_num [POINTS_LLM_CONFIG, PARAGRAPH_LLM_CONFIG],
    by norm_num [POINTS_LLM_CONFIG, PARAGRAPH_LLM_CONFIG]⟩
  intro c hc
  have e : (runPipeline gen title keywords tone).calls =
      (outerLoop gen title (gen 1) tone (response_to_list (pyStripS (gen 0)))
        (initState title keywords tone)).calls := rfl
  rw [e] at hc
  have h : ConfigOK c := by
    refine outerLoop_configOK gen title (gen 1) tone _ _ ?_ c hc
    intro c0 hc0
    simp only [initState, List.mem_cons, List.mem_singleton, List.not_mem_nil,
      or_false] at hc0
    rcases hc0 with rfl | rfl
    · simp [ConfigOK, generate_outline]
    · simp [ConfigOK, generate_intro_paragraph_strArg]
  constructor
  · intro hk
    unfold ConfigOK at h
    rw [if_pos hk] at h
    exact h
  · intro hk
    unfold ConfigOK at h
    rw [if_neg ?_] at h
    · exact h
    · intro hcon
      rcases hk with hk | hk | hk <;> rcases hcon with hcon | hcon <;>
        simp [hk] at hcon

/-- C8 witness. -/
theorem C8_witness :
    (generate_outline ⟨none⟩ "T" [] "informative").1.config = POINTS_LLM_CONFIG ∧
    POINTS_LLM_CONFIG.max_words < PARAGRAPH_LLM_CONFIG.max_words :=
  ⟨((C8_config_presets (fun _ => "A") "T" [] "informative").1
      (generate_outline ⟨none⟩ "T" [] "informative").1
      (by exact List.Mem.head _)).1 (Or.inl rfl),
   (C8_config_presets (fun _ => "A") "T" [] "informative").2.1⟩

/-- C3 (counterexample): in a concrete run with parsed headers
`["A", "B"]`, the single introduction prompt is built with the *title's
characters* joined in place of the headers (api.py line 134 passes
`title` as the `headers` argument), and differs from the prompt that the
parsed header sequence would produce; moreover the conclusion prompt is
issued twice (once per header iteration, api.py line 153), not once. -/
theorem C3_counterexample :
    ((runPipeline (fun _ => "A\nB") "T" [] "informative").calls.filter
        (fun c => decide (c.kind = CallKind.introParagraph))).map GenCall.prompt =
      [introPromptJoined "T" "informative" (pyJoinChars ", " "T")] ∧
    introPromptJoined "T" "informative" (pyJoinChars ", " "T") ≠
      introPromptJoined "T" "informative"
        (String.intercalate ", "
          (runPipeline (fun _ => "A\nB") "T" [] "informative").headers_list) ∧
    countKind (runPipeline (fun _ => "A\nB") "T" [] "informative").calls
      CallKind.conclusionParagraph = 2 := by
  refine ⟨rfl, by decide, rfl⟩

/-- C3 (amended): the pipeline issues exactly one introduction call,
whose prompt is built from the title with the title string itself
standing in for the header sequence (its characters joined by `", "`),
and one conclusion call per header iteration, each built from the title
and the generated introduction. -/
theorem C3_intro_conclusion_calls (gen : Nat → String) (title : String)
    (keywords : List String) (tone : String) :
    countKind (runPipeline gen title keywords tone).calls
      CallKind.introParagraph = 1 ∧
    countKind (runPipeline gen title keywords tone).calls
        CallKind.conclusionParagraph =
      (runPipeline gen title keywords tone).headers_list.length ∧
    ∀ c ∈ (runPipeline gen title keywords tone).calls,
      (c.kind = CallKind.introParagraph →
        c.prompt = introPromptJoined title tone (pyJoinChars ", " title)) ∧
      (c.kind = CallKind.conclusionParagraph →
        c.prompt = conclusionPrompt title
          (runPipeline gen title keywords tone).intro tone) := by
  have e : (runPipeline gen title keywords tone).calls =
      (outerLoop gen title (gen 1) tone (response_to_list (pyStripS (gen 0)))
        (initState title keywords tone)).calls := rfl
  have e2 : (runPipeline gen title keywords tone).headers_list =
      response_to_list (pyStripS (gen 0)) := rfl
  have eI : (runPipeline gen title keywords tone).intro = gen 1 := rfl
  obtain ⟨-, -, h3, -, h5, -⟩ := outerLoop_counts gen title (gen 1) tone
    (response_to_list (pyStripS (gen 0))) (initState title keywords tone)
  have hinit_intro : countKind (initState title keywords tone).calls
      CallKind.introParagraph = 1 := rfl
  have hinit_concl : countKind (initState title keywords tone).calls
      CallKind.conclusionParagraph = 0 := rfl
  refine ⟨?_, ?_, ?_⟩
  · rw [e, h3, hinit_intro]
  · rw [e, e2, h5, hinit_concl]
    exact Nat.zero_add _
  · intro c hc
    rw [e] at hc
    rw [eI]
    refine outerLoop_promptOK gen title (gen 1) tone _ _ ?_ c hc
    intro c0 hc0
    simp only [initState, List.mem_cons, List.mem_singleton, List.not_mem_nil,
      or_false] at hc0
    rcases hc0 with rfl | rfl
    · exact ⟨fun h => by simp [generate_outline] at h,
        fun h => by simp [generate_outline] at h⟩
    · exact ⟨fun _ => rfl,
        fun h => by simp [generate_intro_paragraph_strArg] at h⟩

/-- C3 witness. -/
theorem C3_witness :
    (generate_intro_paragraph_strArg ⟨some "informative"⟩ "T" "T" "informative").1.prompt =
      introPromptJoined "T" "informative" (pyJoinChars ", " "T") :=
  ((C3_intro_conclusion_calls (fun _ => "A") "T" [] "informative").2.2
    (generate_intro_paragraph_strArg ⟨some "informative"⟩ "T" "T" "informative").1
    (by exact List.Mem.tail _ (List.Mem.head _))).1 rfl

/-- C2 (counterexample): in a concrete run whose outline parses to the
two headers `["A", "B"]`, the pipeline issues one introduction call but
*two* conclusion calls (the conclusion is generated inside the
per-header loop, api.py line 153), so the "exactly 2 additional calls"
of the claim are in fact 3. -/
theorem C2_counterexample :
    (runPipeline (fun _ => "A\nB") "Guide" [] "informative").headers_list.length = 2 ∧
    countKind (runPipeline (fun _ => "A\nB") "Guide" [] "informative").calls
      CallKind.introParagraph = 1 ∧
    countKind (runPipeline (fun _ => "A\nB") "Guide" [] "informative").calls
      CallKind.conclusionParagraph = 2 := by
  refine ⟨rfl, rfl, rfl⟩

/-- C2 (amended): one run issues exactly 1 outline call, K talking-point
calls (K = number of parsed headers), one paragraph call per parsed
talking point, exactly 1 introduction call and K conclusion calls (one
per header iteration, not one in total); a completed run creates a
non-empty output file named `{title}.txt`. -/
theorem C2_call_counts (gen : Nat → String) (title : String)
    (keywords : List String) (tone : String) :
    countKind (runPipeline gen title keywords tone).calls CallKind.outline = 1 ∧
    countKind (runPipeline gen title keywords tone).calls CallKind.talkingPoints =
      (runPipeline gen title keywords tone).headers_list.length ∧
    countKind (runPipeline gen title keywords tone).calls CallKind.mainParagraph =
      (runPipeline gen title keywords tone).tp_counts.sum ∧
    (runPipeline gen title keywords tone).tp_counts.length =
      (runPipeline gen title keywords tone).headers_list.length ∧
    countKind (runPipeline gen title keywords tone).calls CallKind.introParagraph = 1 ∧
    countKind (runPipeline gen title keywords tone).calls CallKind.conclusionParagraph =
      (runPipeline gen title keywords tone).headers_list.length ∧
    ((runPipeline gen title keywords tone).completed = true →
      (runPipeline gen title keywords tone).file_name = title ++ ".txt" ∧
      (runPipeline gen title keywords tone).file_content ≠ "") := by
  have e : (runPipeline gen title keywords tone).calls =
      (outerLoop gen title (gen 1) tone (response_to_list (pyStripS (gen 0)))
        (initState title keywords tone)).calls := rfl
  have e2 : (runPipeline gen title keywords tone).headers_list =
      response_to_list (pyStripS (gen 0)) := rfl
  have e3 : (runPipeline gen title keywords tone).tp_counts =
      (outerLoop gen title (gen 1) tone (response_to_list (pyStripS (gen 0)))
        (initState title keywords tone)).tp_counts := rfl
  obtain ⟨h1, h2, h3, h4, h5, h6⟩ := outerLoop_counts gen title (gen 1) tone
    (response_to_list (pyStripS (gen 0))) (initState title keywords tone)
  have i1 : countKind (initState title keywords tone).calls CallKind.outline = 1 := rfl
  have i2 : countKind (initState title keywords tone).calls CallKind.talkingPoints = 0 := rfl
  have i3 : countKind (initState title keywords tone).calls CallKind.mainParagraph = 0 := rfl
  have i4 : countKind (initState title keywords tone).calls CallKind.introParagraph = 1 := rfl
  have i5 : countKind (initState title keywords tone).calls
      CallKind.conclusionParagraph = 0 := rfl
  have i6 : (initState title keywords tone).tp_counts = [] := rfl
  rw [i6] at h1 h6
  simp only [List.length_nil, List.sum_nil] at h1 h6
  refine ⟨by rw [e, h2, i1], by rw [e, e2, h4, i2]; exact Nat.zero_add _,
    by rw [e, e3]; omega, by rw [e2, e3]; omega, by rw [e, h3, i4],
    by rw [e, e2, h5, i5]; exact Nat.zero_add _, fun _ => ⟨rfl, fun h0 => ?_⟩⟩
  have hl := congrArg String.length h0
  have efc : (runPipeline gen title keywords tone).file_content =
      gen 1 ++ "\n" ++
        String.join ((outerLoop gen title (gen 1) tone
            (response_to_list (pyStripS (gen 0)))
            (initState title keywords tone)).pg_map.map fun p =>
          p.1 ++ "\n" ++ String.intercalate "\n" p.2) ++
        (outerLoop gen title (gen 1) tone (response_to_list (pyStripS (gen 0)))
          (initState title keywords tone)).conclusion?.getD "" := rfl
  rw [efc] at hl
  simp only [String.length_append] at hl
  have h1n : ("\n" : String).length = 1 := rfl
  have h0n : ("" : String).length = 0 := rfl
  rw [h1n, h0n] at hl
  omega

/-- C2 witness. -/
theorem C2_witness :
    (runPipeline (fun _ => "X") "T" [] "informative").file_name = "T" ++ ".txt" ∧
    (runPipeline (fun _ => "X") "T" [] "informative").file_content ≠ "" :=
  (C2_call_counts (fun _ => "X") "T" [] "informative").2.2.2.2.2.2 (by rfl)

/-- C7: for a completed run with pairwise-distinct parsed headers, the
output file is named `{title}.txt`, the `header_paragraphs_map` keys are
exactly the parsed headers in generation order, and the file content is
the introduction, a newline, then for each header the header, a newline
and its newline-joined paragraphs, then the conclusion. -/
theorem C7_assembly (gen : Nat → String) (title : String)
    (keywords : List String) (tone : String)
    (_hcomp : (runPipeline gen title keywords tone).completed = true)
    (hnd : (runPipeline gen title keywords tone).headers_list.Nodup) :
    (runPipeline gen title keywords tone).file_name = title ++ ".txt" ∧
    (runPipeline gen title keywords tone).pg_map.map Prod.fst =
      (runPipeline gen title keywords tone).headers_list ∧
    (runPipeline gen title keywords tone).file_content =
      (runPipeline gen title keywords tone).intro ++ "\n" ++
        String.join ((runPipeline gen title keywords tone).pg_map.map fun p =>
          p.1 ++ "\n" ++ String.intercalate "\n" p.2) ++
        (runPipeline gen title keywords tone).conclusion?.getD "" := by
  refine ⟨rfl, ?_, rfl⟩
  have e : (runPipeline gen title keywords tone).pg_map =
      (outerLoop gen title (gen 1) tone (response_to_list (pyStripS (gen 0)))
        (initState title keywords tone)).pg_map := rfl
  have e2 : (runPipeline gen title keywords tone).headers_list =
      response_to_list (pyStripS (gen 0)) := rfl
  rw [e2] at hnd
  rw [e, e2]
  have h := outerLoop_pg_keys gen title (gen 1) tone
    (response_to_list (pyStripS (gen 0))) (initState title keywords tone) hnd
    (by intro x hx q hq; cases hq)
  rw [h]
  rfl

/-- C7 witness. -/
theorem C7_witness :
    (runPipeline (fun _ => "A\nB") "W" [] "informative").file_name = "W" ++ ".txt" ∧
    (runPipeline (fun _ => "A\nB") "W" [] "informative").pg_map.map Prod.fst =
      (runPipeline (fun _ => "A\nB") "W" [] "informative").headers_list ∧
    (runPipeline (fun _ => "A\nB") "W" [] "informative").file_content =
      (runPipeline (fun _ => "A\nB") "W" [] "informative").intro ++ "\n" ++
        String.join ((runPipeline (fun _ => "A\nB") "W" [] "informative").pg_map.map
          fun p => p.1 ++ "\n" ++ String.intercalate "\n" p.2) ++
        (runPipeline (fun _ => "A\nB") "W" [] "informative").conclusion?.getD "" :=
  C7_assembly (fun _ => "A\nB") "W" [] "informative" (by rfl) (by decide)
